import Mathlib

/-!
# RadAlert (`check_backlog_gpt.py`): a verification development

A shallow embedding, in Lean 4, of the observable logic of the single-file
RadAlert pipeline: the schedule gate (`within_window_now`), the Telegram text
chunking (`send_telegram_text`), the strict-then-recovering parse of the vision
model's output (`ask_gpt_vision`, lines 140-147), the markup truncation
(line 130), the login form discovery (`try_fill_on_frame`, `perform_login`),
and the one-shot pipeline (`run_once`) with its alert decision (lines 297-310).

Modelling conventions:
* Python strings are modelled as `List Char` (sequences of code points) where
  slicing arithmetic matters, and as `String` for attribute values.
* Machine side effects of the browser-automation and HTTP collaborators are
  modelled as oracle inputs (which selector fills succeed, whether the
  network-idle wait completed, what text the model returned); exceptions
  raised by a collaborator call and caught by the code are modelled as a
  `false`/`none` outcome of that call, uncaught exceptions as `Except.error`.
* `json.loads` is an external library routine; it is modelled as an abstract
  `parse : String -> Option Json` argument, so every theorem about the
  strict-then-recovering parse contract holds for any parser behaviour.
-/

/-- A JSON value as produced by `json.loads`: numbers (modelled as integers —
the integer counts are the only numbers the pipeline reads), strings,
booleans, null, arrays and objects (ordered field lists). -/
inductive Json where
  | num (n : Int)
  | str (s : String)
  | bool (b : Bool)
  | null
  | arr (xs : List Json)
  | obj (fields : List (String × Json))
deriving Repr

/-- First-match lookup with default: Python's `dict.get(key, default)` on an
object's field list (JSON object keys are unique after `json.loads`). -/
def lookupD (fields : List (String × Json)) (key : String) (dflt : Json) : Json :=
  match fields.find? (fun p => p.1 == key) with
  | some p => p.2
  | none => dflt

/-- Python `value.get(key, default)`: succeeds only when the receiver is a
dict; on any non-dict receiver `.get` raises (`AttributeError`), modelled as
`Except.error`. -/
def pyGet (j : Json) (key : String) (dflt : Json) : Except Unit Json :=
  match j with
  | .obj fields => .ok (lookupD fields key dflt)
  | _ => .error ()

/-- Python `int(...)` coercion on the JSON values the pipeline can read:
integers pass through, booleans coerce to 0/1, anything else raises
(modelled as `Except.error`; coercion of numeric strings is not exercised
by any claim and is modelled as a raise as well). -/
def pyInt (j : Json) : Except Unit Int :=
  match j with
  | .num n => .ok n
  | .bool b => .ok (if b then 1 else 0)
  | _ => .error ()

/-- The composed backlog alert (`run_once` lines 304-309): the interpolated
total and the two per-modality values (taken verbatim from the JSON). -/
structure AlertMsg where
  total : Int
  ct : Json
  mri : Json
deriving Repr

/-- The live-mode alert decision, `run_once` lines 297-310:
`ct_mri = int(result.get("count_ct_mri_over_60", 0))`,
`by_mod = result.get("by_modality", {})`, `ct = by_mod.get("CT", 0)`,
`mri = by_mod.get("MRI", 0)`; send iff `ct_mri > THRESHOLD`. -/
def decideAlert (result : Json) (threshold : Int) : Except Unit (Option AlertMsg) := do
  let v ← pyGet result "count_ct_mri_over_60" (.num 0)
  let ct_mri ← pyInt v
  let by_mod ← pyGet result "by_modality" (.obj [])
  let ct ← pyGet by_mod "CT" (.num 0)
  let mri ← pyGet by_mod "MRI" (.num 0)
  pure (if ct_mri > threshold then some ⟨ct_mri, ct, mri⟩ else none)

/-- The chunk size `CHUNK = 3500` in `send_telegram_text`. -/
def CHUNK : Nat := 3500

/-- The chunking loop of `send_telegram_text` (lines 67-71): while text
remains, emit `text[i:i+CHUNK]` and advance by `CHUNK`. -/
def splitChunks (s : List Char) : List (List Char) :=
  if h : s = [] then []
  else s.take CHUNK :: splitChunks (s.drop CHUNK)
termination_by s.length
decreasing_by
  simp only [List.length_drop]
  have hp : 0 < s.length := List.length_pos.mpr h
  simp only [CHUNK]
  omega

/-- The notifier text operation `send_telegram_text` (lines 60-71), modelled by the list of message bodies
posted, in order: one message when the text fits in `CHUNK`, otherwise the
chunking loop. -/
def send_telegram_text (text : List Char) : List (List Char) :=
  if text.length ≤ CHUNK then [text] else splitChunks text

/-- The markup cap used at `ask_gpt_vision` line 130: `table_html[:120000]`. -/
def MARKUP_CAP : Nat := 120000

/-- The markup text actually included in the model request
(`f"TABLE_HTML:\n{table_html[:120000]}"`, keeping only the sliced markup). -/
def tableHtmlSent (table_html : List Char) : List Char :=
  table_html.take MARKUP_CAP

/-- Index of the first character satisfying `p` (used to model the leftmost
match position of the regex search in `ask_gpt_vision` line 144). -/
def firstIdxAux (p : Char → Bool) : List Char → Option Nat
  | [] => none
  | c :: rest => if p c then some 0 else (firstIdxAux p rest).map (· + 1)

/-- Index of the last character satisfying `p`. -/
def lastIdxAux (p : Char → Bool) (l : List Char) : Option Nat :=
  (firstIdxAux p l.reverse).map (fun k => l.length - 1 - k)

/-- The substring matched by the greedy DOTALL regex search for a
brace-delimited region (Python `re.search(r"\x7b.*\x7d", content, re.S)`):
the span from the first opening brace to the last closing brace, when the
former strictly precedes the latter; `none` when the regex has no match. -/
def braceSpan (l : List Char) : Option (List Char) := do
  let i ← firstIdxAux (· == '{') l
  let j ← lastIdxAux (· == '}') l
  if i < j then some ((l.drop i).take (j - i + 1)) else none

/-- The forced-JSON-parse contract of `ask_gpt_vision` (lines 140-147):
try `json.loads` on the whole text; on failure retry on the brace-delimited
span; when there is no span, or the span fails to parse as well, the call
raises (`MalformedExtractionOutput` in the spec's terms), modelled as
`Except.error`. The external `json.loads` is the `parse` argument. -/
def forceJsonParse (parse : String → Option Json) (content : String) : Except Unit Json :=
  match parse content with
  | some j => .ok j
  | none =>
    match braceSpan content.data with
    | none => .error ()
    | some w =>
      match parse (String.mk w) with
      | some j => .ok j
      | none => .error ()

/-- Boolean test that `needle` is an initial segment of `hay`. -/
def leadsWith : List Char → List Char → Bool
  | [], _ => true
  | _ :: _, [] => false
  | a :: as, b :: bs => a == b && leadsWith as bs

/-- Boolean test that `needle` occurs contiguously inside `hay`. -/
def containsSub (needle : List Char) : List Char → Bool
  | [] => needle.isEmpty
  | c :: rest => leadsWith needle (c :: rest) || containsSub needle rest

/-- Case-insensitive substring test, the semantics of the CSS `*=` attribute
operator with the `i` flag and of Playwright's `:has-text`. -/
def containsCI (needle hay : String) : Bool :=
  containsSub (needle.data.map Char.toLower) (hay.data.map Char.toLower)

/-- One DOM element of a frame, as observed through the selector engine:
tag, the attributes the code's selectors consult, rendered text, the
actionability bits Playwright checks before `fill`/`click`, and the
accessible label association (consulted only by the spec's description of
label-based heuristics, never by the code). -/
structure DomEl where
  tag : String
  typeAttr : Option String
  nameAttr : Option String
  idAttr : Option String
  placeholder : Option String
  ariaLabel : Option String
  valueAttr : Option String
  textContent : String
  visible : Bool
  editable : Bool
  enabled : Bool
  labelText : Option String
deriving Repr

/-- Attribute lookup by CSS attribute name. -/
def getAttr (e : DomEl) (a : String) : Option String :=
  if a = "name" then e.nameAttr
  else if a = "id" then e.idAttr
  else if a = "placeholder" then e.placeholder
  else if a = "aria-label" then e.ariaLabel
  else if a = "type" then e.typeAttr
  else if a = "value" then e.valueAttr
  else none

/-- The selector shapes occurring in `try_fill_on_frame`'s three literal
selector lists: exact attribute equality, case-insensitive attribute
substring (the `i` flag), and Playwright's `:has-text` filter. -/
inductive Sel where
  | tagAttrEq (tag attr val : String)
  | tagAttrSubCI (tag attr val : String)
  | tagHasText (tag txt : String)
deriving Repr, DecidableEq

/-- CSS matching of one selector against one element. -/
def matchesSel : Sel → DomEl → Bool
  | .tagAttrEq tg a v, e => e.tag == tg && getAttr e a == some v
  | .tagAttrSubCI tg a v, e =>
    e.tag == tg &&
      (match getAttr e a with
       | some s => containsCI v s
       | none => false)
  | .tagHasText tg t, e => e.tag == tg && containsCI t e.textContent

/-- The `user_selectors` list of `try_fill_on_frame` (lines 155-159), in
source order. -/
def user_selectors : List Sel :=
  [ .tagAttrEq "input" "name" "username"
  , .tagAttrEq "input" "name" "user"
  , .tagAttrSubCI "input" "id" "user"
  , .tagAttrSubCI "input" "placeholder" "User"
  , .tagAttrSubCI "input" "aria-label" "User"
  , .tagAttrEq "input" "type" "email"
  , .tagAttrEq "input" "type" "text" ]

/-- The `pass_selectors` list (lines 160-164), in source order. -/
def pass_selectors : List Sel :=
  [ .tagAttrEq "input" "name" "password"
  , .tagAttrSubCI "input" "id" "pass"
  , .tagAttrSubCI "input" "placeholder" "Pass"
  , .tagAttrSubCI "input" "aria-label" "Pass"
  , .tagAttrEq "input" "type" "password" ]

/-- The `submit_selectors` list (lines 165-169), in source order. -/
def submit_selectors : List Sel :=
  [ .tagAttrEq "button" "type" "submit"
  , .tagAttrEq "input" "type" "submit"
  , .tagHasText "button" "Login"
  , .tagHasText "button" "Sign In"
  , .tagAttrSubCI "input" "value" "Login"
  , .tagAttrSubCI "input" "value" "Sign In" ]

/-- Outcome of one `frame.fill(sel, value, timeout=1500)` call: Playwright
resolves the selector to its first match in document order and fills it when
that element is actionable (visible and editable); a missing match or a
non-actionable first match times out, which the code catches as failure. -/
def fillAttempt (els : List DomEl) (sel : Sel) : Bool :=
  match els.find? (matchesSel sel) with
  | some e => e.visible && e.editable
  | none => false

/-- Outcome of one `frame.click(sel, timeout=1500)` call, analogously:
first match must be visible and enabled. -/
def clickAttempt (els : List DomEl) (sel : Sel) : Bool :=
  match els.find? (matchesSel sel) with
  | some e => e.visible && e.enabled
  | none => false

/-- The selectors actually attempted by a first-success loop: every selector
up to and including the first succeeding one (all of them when none does). -/
def attemptsUpToFirst (p : Sel → Bool) : List Sel → List Sel
  | [] => []
  | s :: rest => if p s then [s] else s :: attemptsUpToFirst p rest

/-- What one `try_fill_on_frame` call did: which user/password selector
filled (first success per list), which submit selectors were click-attempted,
which click succeeded, and the returned boolean. -/
structure FillResult where
  userSel : Option Sel
  passSel : Option Sel
  submitAttempts : List Sel
  clicked : Option Sel
  submitted : Bool
deriving Repr

/-- Shallow embedding of `try_fill_on_frame` (lines 153-196): fill loops over
`user_selectors` and `pass_selectors` (each first-success, failures caught and
skipped), then — only when both fills succeeded — the submit click loop;
returns `True` exactly when a submit click succeeded. -/
def try_fill_on_frame (els : List DomEl) : FillResult :=
  let u := user_selectors.find? (fillAttempt els)
  let p := pass_selectors.find? (fillAttempt els)
  if u.isSome && p.isSome then
    match submit_selectors.find? (clickAttempt els) with
    | some s => ⟨u, p, attemptsUpToFirst (clickAttempt els) submit_selectors, some s, true⟩
    | none => ⟨u, p, attemptsUpToFirst (clickAttempt els) submit_selectors, none, false⟩
  else ⟨u, p, [], none, false⟩

/-- One browsing session as the discovery engine observes it: the top-level
frame's element list at the first fill attempt, the element list it would
show to a hypothetical second top-level attempt (the page may have changed),
and the nested frames in enumeration order. The reveal click of
`perform_login` (lines 202-206) is attempted before `mainFirst` is observed
and its own failure is swallowed, so it does not appear separately. -/
structure Session where
  mainFirst : List DomEl
  mainRetry : List DomEl
  frames : List (List DomEl)
deriving Repr

/-- Shallow embedding of `perform_login` (lines 199-222): try the top-level
frame once, then every nested frame in enumeration order (each attempt's
exceptions caught and treated as failure), then return `False`. -/
def perform_login (s : Session) : Bool :=
  if (try_fill_on_frame s.mainFirst).submitted then true
  else s.frames.any (fun f => (try_fill_on_frame f).submitted)

/-- The session with zero nested frames and zero elements (hence zero
matching selectors anywhere). -/
def emptySession : Session := ⟨[], [], []⟩

/-- Discovery order as the spec states it (spec §4.1 step 5): top-level
first, then each nested frame in enumeration order, and on total failure one
more top-level attempt. Stated from the spec's words, for comparison with
`perform_login`. -/
def performLoginSpec (s : Session) : Bool :=
  if (try_fill_on_frame s.mainFirst).submitted then true
  else if s.frames.any (fun f => (try_fill_on_frame f).submitted) then true
  else (try_fill_on_frame s.mainRetry).submitted

/-- Actionability required to populate a control ("fillable"). -/
def fillable (e : DomEl) : Bool := e.visible && e.editable

/-- Case-insensitive attribute-substring test on one element. -/
def attrContainsCI (e : DomEl) (a v : String) : Bool :=
  match getAttr e a with
  | some s => containsCI v s
  | none => false

/-- Spec §4.1.2a, username side: name/id/placeholder/aria-label containing
"user", or input type email, or type text. -/
def specAttrUser (e : DomEl) : Bool :=
  e.tag == "input" &&
    (attrContainsCI e "name" "user" || attrContainsCI e "id" "user" ||
     attrContainsCI e "placeholder" "user" || attrContainsCI e "aria-label" "user" ||
     getAttr e "type" == some "email" || getAttr e "type" == some "text")

/-- Spec §4.1.2a, password side: type password preferred, then
id/placeholder/aria-label containing "pass". -/
def specAttrPass (e : DomEl) : Bool :=
  e.tag == "input" &&
    (getAttr e "type" == some "password" || attrContainsCI e "id" "pass" ||
     attrContainsCI e "placeholder" "pass" || attrContainsCI e "aria-label" "pass")

/-- Accessible-label match, case-insensitive, per spec §4.1.2b. -/
def labelIs (e : DomEl) (w : String) : Bool :=
  match e.labelText with
  | some t => t.data.map Char.toLower == w.data.map Char.toLower
  | none => false

/-- Spec §4.1.2a as a self-contained sub-chain: both fields found by ranked
attribute patterns, first matching fillable control per field. -/
def chainAttr (els : List DomEl) : Bool :=
  (els.find? (fun e => specAttrUser e && fillable e)).isSome &&
  (els.find? (fun e => specAttrPass e && fillable e)).isSome

/-- Spec §4.1.2b as a self-contained sub-chain (the accessible-label arm):
the control whose accessible label text matches "Username"/"Password"
case-insensitively. -/
def chainLabel (els : List DomEl) : Bool :=
  (els.find? (fun e => e.tag == "input" && labelIs e "Username" && fillable e)).isSome &&
  (els.find? (fun e => e.tag == "input" && labelIs e "Password" && fillable e)).isSome

/-- Spec §4.1.2c as a self-contained sub-chain: first visible `text` input
and first visible `password` input, hidden duplicates ignored. -/
def chainGeneric (els : List DomEl) : Bool :=
  (els.find? (fun e => e.tag == "input" && getAttr e "type" == some "text" && fillable e)).isSome &&
  (els.find? (fun e => e.tag == "input" && getAttr e "type" == some "password" && fillable e)).isSome

/-- The fill phase as the spec states it (three sub-chains in fixed priority
order, first success wins). Stated from the spec's words, for comparison
with the code's fill phase. -/
def fillPhaseSpec (els : List DomEl) : Bool :=
  chainAttr els || chainLabel els || chainGeneric els

/-- The code's fill phase outcome: both first-success loops of
`try_fill_on_frame` found a fillable control. -/
def codeFillPhase (els : List DomEl) : Bool :=
  (user_selectors.find? (fillAttempt els)).isSome &&
  (pass_selectors.find? (fillAttempt els)).isSome

/-- Schedule gate `within_window_now` (lines 40-53) on the extracted
America/New_York weekday (`Mon=0..Sun=6`) and hour: Mon-Fri at 18/20/22,
Saturday at every even hour from 4 to 22. -/
def within_window_now (wd hr : Nat) : Bool :=
  if wd < 5 && (hr == 18 || hr == 20 || hr == 22) then true
  else if wd == 5 && (hr == 4 || hr == 6 || hr == 8 || hr == 10 || hr == 12 ||
                      hr == 14 || hr == 16 || hr == 18 || hr == 20 || hr == 22) then true
  else false

/-- Externally observable actions of one `run_once` call, in order. -/
inductive Event where
  | navigate
  | screenshotLogin
  | tgPhotoLoginFail
  | screenshotPage
  | tgPhotoDryRun
  | gptRequest
  | tgTextDryRun
  | tgTextAlert (m : AlertMsg)
deriving Repr

/-- The uncaught exceptions that can terminate `run_once`. -/
inductive RunError where
  | loginNotFound
  | networkIdleTimeout
  | malformedOutput
  | typeError
deriving Repr, DecidableEq

/-- Oracle inputs of one `run_once` call: configuration flags, the schedule
gate's verdict, the session's frame contents, whether the post-login
network-idle wait completed inside its bounded timeout, the captured markup,
the model's response text, and the external `json.loads` behaviour. -/
structure RunInput where
  dryRun : Bool
  inWindow : Bool
  session : Session
  networkIdle : Bool
  tableHtml : List Char
  content : String
  parse : String → Option Json

/-- Shallow embedding of `run_once` (lines 228-310) as the pair of the
ordered event trace and the outcome. Gate (line 230); navigation; login
attempts; on failure a diagnostic screenshot, a Telegram photo only under
`DRY_RUN`, and a raised `RuntimeError` (lines 245-249); the uncaught
`wait_for_load_state("networkidle")` timeout (line 252, the automation
library raises `TimeoutError` after its default 30 s); capture screenshot and
`DRY_RUN` photo; the model call with the forced-JSON parse; the `DRY_RUN`
JSON dump; else the live alert decision. -/
def run_once (inp : RunInput) (threshold : Int) : List Event × Except RunError Unit :=
  if !inp.dryRun && !inp.inWindow then ([], .ok ()) else
  if !(perform_login inp.session) then
    ([.navigate, .screenshotLogin] ++ (if inp.dryRun then [.tgPhotoLoginFail] else []),
     .error .loginNotFound)
  else if !inp.networkIdle then
    ([.navigate], .error .networkIdleTimeout)
  else
    let evCap : List Event :=
      [.navigate, .screenshotPage] ++ (if inp.dryRun then [.tgPhotoDryRun] else [])
    match forceJsonParse inp.parse inp.content with
    | .error _ => (evCap ++ [.gptRequest], .error .malformedOutput)
    | .ok result =>
      if inp.dryRun then (evCap ++ [.gptRequest, .tgTextDryRun], .ok ())
      else
        match decideAlert result threshold with
        | .error _ => (evCap ++ [.gptRequest], .error .typeError)
        | .ok none => (evCap ++ [.gptRequest], .ok ())
        | .ok (some m) => (evCap ++ [.gptRequest, .tgTextAlert m], .ok ())

/-- A username text input that every attribute heuristic of the code's first
user selector recognises; visible and editable. -/
def userInputEl : DomEl :=
  { tag := "input", typeAttr := some "text", nameAttr := some "username", idAttr := none,
    placeholder := none, ariaLabel := none, valueAttr := none, textContent := "",
    visible := true, editable := true, enabled := true, labelText := none }

/-- A password input recognised by the code's first password selector. -/
def passInputEl : DomEl :=
  { tag := "input", typeAttr := some "password", nameAttr := some "password", idAttr := none,
    placeholder := none, ariaLabel := none, valueAttr := none, textContent := "",
    visible := true, editable := true, enabled := true, labelText := none }

/-- A submit button recognised by the code's first submit selector. -/
def submitBtnEl : DomEl :=
  { tag := "button", typeAttr := some "submit", nameAttr := none, idAttr := none,
    placeholder := none, ariaLabel := none, valueAttr := none, textContent := "Login",
    visible := true, editable := false, enabled := true, labelText := none }

/-- A complete, discoverable login form. -/
def workingFormEls : List DomEl := [userInputEl, passInputEl, submitBtnEl]

/-- A session whose top-level frame shows nothing at the first attempt but
would show a complete login form to a second attempt; no nested frames. -/
def retrySession : Session := ⟨[], workingFormEls, []⟩

/-- A username control reachable only through its accessible label: an input
of type `search` with no name/id/placeholder/aria-label, labelled
"Username". -/
def labelUserEl : DomEl :=
  { tag := "input", typeAttr := some "search", nameAttr := none, idAttr := none,
    placeholder := none, ariaLabel := none, valueAttr := none, textContent := "",
    visible := true, editable := true, enabled := true, labelText := some "Username" }

/-- A password control reachable only through its accessible label. -/
def labelPassEl : DomEl :=
  { tag := "input", typeAttr := some "search", nameAttr := none, idAttr := none,
    placeholder := none, ariaLabel := none, valueAttr := none, textContent := "",
    visible := true, editable := true, enabled := true, labelText := some "Password" }

/-- A frame carrying only label-associated credential controls. -/
def labelOnlyEls : List DomEl := [labelUserEl, labelPassEl]

/-- A frame carrying a username field but no password field. -/
def userOnlyEls : List DomEl := [userInputEl]

/-- A live-mode extraction result with total 26 and no `by_modality` key. -/
def c1Fields : List (String × Json) := [("count_ct_mri_over_60", .num 26)]

/-- A live-mode in-window run whose model output parses to `c1Fields`. -/
def c1Input : RunInput :=
  ⟨false, true, ⟨workingFormEls, [], []⟩, true, [], "x", fun _ => some (.obj c1Fields)⟩

/-- A parser accepting exactly the well-formed object of the demo response. -/
def demoParse : String → Option Json :=
  fun s => if s = "\x7b\"n\": 1\x7d" then some (.obj [("n", .num 1)]) else none

/-- A model response with prose around a well-formed object. -/
def demoContent : String := "noise \x7b\"n\": 1\x7d tail"

/-- A diagnostic-mode run whose session exposes no selector match anywhere. -/
def c5Input : RunInput := ⟨true, true, emptySession, true, [], "", fun _ => none⟩

/-- A live in-window run that logs in but never reaches network quiescence. -/
def idleTimeoutInput : RunInput :=
  ⟨false, true, ⟨workingFormEls, [], []⟩, false, [], "", fun _ => none⟩

/-- A live-mode run invoked outside the schedule windows. -/
def gateOffInput : RunInput := ⟨false, false, emptySession, true, [], "", fun _ => none⟩

/-- Unfolding lemma: chunking the empty text yields no chunks. -/
theorem splitChunks_nil : splitChunks [] = [] := by
  rw [splitChunks]; simp

/-- Unfolding lemma: one loop iteration of the chunker. -/
theorem splitChunks_cons (s : List Char) (h : s ≠ []) :
    splitChunks s = s.take CHUNK :: splitChunks (s.drop CHUNK) := by
  rw [splitChunks]; simp [h]

/-- Concatenating the chunks in send order restores the original text. -/
theorem splitChunks_join (s : List Char) : (splitChunks s).flatten = s := by
  by_cases h : s = []
  · subst h; rw [splitChunks_nil]; rfl
  · rw [splitChunks_cons s h]
    have ih := splitChunks_join (s.drop CHUNK)
    simp only [List.flatten_cons, ih, List.take_append_drop]
termination_by s.length
decreasing_by
  simp only [List.length_drop, CHUNK]
  have := List.length_pos.mpr h
  omega

/-- Every chunk respects the chunk-size bound. -/
theorem splitChunks_chunk_le (s : List Char) : ∀ c ∈ splitChunks s, c.length ≤ CHUNK := by
  intro c hc
  by_cases h : s = []
  · subst h; rw [splitChunks_nil] at hc; cases hc
  · rw [splitChunks_cons s h] at hc
    rcases List.mem_cons.mp hc with hc2 | hc2
    · subst hc2
      simp only [List.length_take]
      omega
    · exact splitChunks_chunk_le (s.drop CHUNK) c hc2
termination_by s.length
decreasing_by
  simp only [List.length_drop, CHUNK]
  have := List.length_pos.mpr h
  omega

/-- The number of chunks is the length divided by `CHUNK`, rounded up. -/
theorem splitChunks_count (s : List Char) :
    (splitChunks s).length = (s.length + (CHUNK - 1)) / CHUNK := by
  by_cases h : s = []
  · subst h; rw [splitChunks_nil]; rfl
  · rw [splitChunks_cons s h]
    have ih := splitChunks_count (s.drop CHUNK)
    simp only [List.length_cons, ih, List.length_drop]
    have hp := List.length_pos.mpr h
    simp only [CHUNK] at *
    omega
termination_by s.length
decreasing_by
  simp only [List.length_drop, CHUNK]
  have := List.length_pos.mpr h
  omega

/-- A first-success loop that returns a value returns the first list entry
satisfying the test: everything before it failed. -/
theorem find?_first_success {α : Type} (p : α → Bool) :
    ∀ (l : List α) (a : α), l.find? p = some a →
      p a = true ∧ ∃ l1 l2, l = l1 ++ a :: l2 ∧ ∀ x ∈ l1, p x = false := by
  intro l
  induction l with
  | nil => intro a ha; cases ha
  | cons b rest ih =>
    intro a ha
    by_cases hb : p b = true
    · rw [List.find?_cons_of_pos _ hb] at ha
      cases ha
      exact ⟨hb, [], rest, rfl, by intro x hx; cases hx⟩
    · have hb' : p b = false := by
        cases hpb : p b
        · rfl
        · exact absurd hpb hb
      rw [List.find?_cons_of_neg _ (by simp [hb'])] at ha
      obtain ⟨hpa, l1, l2, hsplit, hfail⟩ := ih a ha
      refine ⟨hpa, b :: l1, l2, by rw [hsplit]; rfl, ?_⟩
      intro x hx
      rcases List.mem_cons.mp hx with hx2 | hx2
      · subst hx2; exact hb'
      · exact hfail x hx2

/-- The first-index search finds an index bearing a satisfying character,
and nothing before it satisfies the test. -/
theorem firstIdxAux_some (p : Char → Bool) :
    ∀ (l : List Char) (i : Nat), firstIdxAux p l = some i →
      (∃ c, l[i]? = some c ∧ p c = true) ∧
      ∀ k, k < i → ∀ c, l[k]? = some c → p c = false := by
  intro l
  induction l with
  | nil => intro i hi; cases hi
  | cons b rest ih =>
    intro i hi
    by_cases hb : p b = true
    · simp only [firstIdxAux, if_pos hb] at hi
      cases hi
      exact ⟨⟨b, by simp, hb⟩, by intro k hk; omega⟩
    · have hb' : p b = false := by simpa using hb
      simp only [firstIdxAux, if_neg hb] at hi
      obtain ⟨i0, hi0, hmap⟩ := Option.map_eq_some'.mp hi
      obtain ⟨⟨c, hc, hpc⟩, hmin⟩ := ih i0 hi0
      subst hmap
      refine ⟨⟨c, by simpa using hc, hpc⟩, ?_⟩
      intro k hk c2 hc2
      match k with
      | 0 =>
        simp only [List.getElem?_cons_zero, Option.some.injEq] at hc2
        subst hc2
        exact hb'
      | k0 + 1 =>
        simp only [List.getElem?_cons_succ] at hc2
        exact hmin k0 (by omega) c2 hc2

/-- A failed first-index search means no character satisfies the test. -/
theorem firstIdxAux_none (p : Char → Bool) :
    ∀ (l : List Char), firstIdxAux p l = none →
      ∀ (k : Nat) (c : Char), l[k]? = some c → p c = false := by
  intro l
  induction l with
  | nil => intro _ k c hc; cases hc
  | cons b rest ih =>
    intro h k c hc
    by_cases hb : p b = true
    · simp only [firstIdxAux, if_pos hb] at h
      cases h
    · have hb' : p b = false := by simpa using hb
      simp only [firstIdxAux, if_neg hb, Option.map_eq_none'] at h
      match k with
      | 0 =>
        simp only [List.getElem?_cons_zero, Option.some.injEq] at hc
        subst hc
        exact hb'
      | k0 + 1 =>
        simp only [List.getElem?_cons_succ] at hc
        exact ih h k0 c hc

/-- A successful index lookup is in bounds. -/
theorem lt_length_of_lookup {l : List Char} {i : Nat} {c : Char} (h : l[i]? = some c) :
    i < l.length := by
  by_contra hlt
  rw [List.getElem?_eq_none (by omega)] at h
  cases h

/-- The last-index search finds an index bearing a satisfying character,
and nothing after it satisfies the test. -/
theorem lastIdxAux_some (p : Char → Bool) (l : List Char) (j : Nat)
    (hj : lastIdxAux p l = some j) :
    (∃ c, l[j]? = some c ∧ p c = true) ∧
    (∀ (k : Nat) (c : Char), j < k → l[k]? = some c → p c = false) := by
  obtain ⟨k0, hk0, hmap⟩ := Option.map_eq_some'.mp hj
  obtain ⟨⟨c, hc, hpc⟩, hmin⟩ := firstIdxAux_some p l.reverse k0 hk0
  have hk0lt : k0 < l.length := by
    have := lt_length_of_lookup hc
    simpa using this
  have hrev : l.reverse[k0]? = l[l.length - 1 - k0]? :=
    List.getElem?_reverse (by simpa using hk0lt)
  subst hmap
  constructor
  · exact ⟨c, by rw [← hrev]; exact hc, hpc⟩
  · intro k c2 hk hc2
    have hklt : k < l.length := lt_length_of_lookup hc2
    have hk2 : l.reverse[l.length - 1 - k]? = l[k]? := by
      rw [List.getElem?_reverse (by omega)]
      congr 1
      omega
    exact hmin (l.length - 1 - k) (by omega) c2 (by rw [hk2]; exact hc2)

/-- A failed last-index search means no character satisfies the test. -/
theorem lastIdxAux_none (p : Char → Bool) (l : List Char) (h : lastIdxAux p l = none) :
    ∀ (k : Nat) (c : Char), l[k]? = some c → p c = false := by
  simp only [lastIdxAux, Option.map_eq_none'] at h
  intro k c hc
  have hklt : k < l.length := lt_length_of_lookup hc
  have hrc : l.reverse[l.length - 1 - k]? = some c := by
    rw [List.getElem?_reverse (by omega)]
    have heq : l.length - 1 - (l.length - 1 - k) = k := by omega
    rw [heq]; exact hc
  exact firstIdxAux_none p l.reverse h _ _ hrc

/-- Uniqueness: an in-bounds satisfying position with nothing satisfying
before it is the result of the first-index search. -/
theorem firstIdxAux_eq (p : Char → Bool) (l : List Char) (i : Nat) (c : Char)
    (hi : l[i]? = some c) (hpc : p c = true)
    (hmin : ∀ (k : Nat) (c2 : Char), k < i → l[k]? = some c2 → p c2 = false) :
    firstIdxAux p l = some i := by
  cases hfi : firstIdxAux p l with
  | none =>
    have := firstIdxAux_none p l hfi i c hi
    rw [hpc] at this
    cases this
  | some i2 =>
    obtain ⟨⟨c2, hc2, hpc2⟩, hmin2⟩ := firstIdxAux_some p l i2 hfi
    rcases Nat.lt_trichotomy i2 i with hlt | heq | hgt
    · have := hmin i2 c2 hlt hc2
      rw [hpc2] at this
      cases this
    · rw [heq]
    · have := hmin2 i hgt c hi
      rw [hpc] at this
      cases this

/-- Uniqueness: an in-bounds satisfying position with nothing satisfying
after it is the result of the last-index search. -/
theorem lastIdxAux_eq (p : Char → Bool) (l : List Char) (j : Nat) (c : Char)
    (hj : l[j]? = some c) (hpc : p c = true)
    (hmax : ∀ (k : Nat) (c2 : Char), j < k → l[k]? = some c2 → p c2 = false) :
    lastIdxAux p l = some j := by
  cases hfj : lastIdxAux p l with
  | none =>
    have := lastIdxAux_none p l hfj j c hj
    rw [hpc] at this
    cases this
  | some j2 =>
    obtain ⟨⟨c2, hc2, hpc2⟩, hmax2⟩ := lastIdxAux_some p l j2 hfj
    rcases Nat.lt_trichotomy j2 j with hlt | heq | hgt
    · have := hmax2 j c hlt hj
      rw [hpc] at this
      cases this
    · rw [heq]
    · have := hmax j2 c2 hgt hc2
      rw [hpc2] at this
      cases this

/-- The regex recovery window: with the first opening brace at `i`, the last
closing brace at `j`, and `i < j`, the searched span is `l[i..j]`. -/
theorem braceSpan_of_first_last (l : List Char) (i j : Nat)
    (hi : l[i]? = some '{') (hmin : ∀ (k : Nat), k < i → l[k]? ≠ some '{')
    (hj : l[j]? = some '}') (hmax : ∀ (k : Nat), j < k → l[k]? ≠ some '}')
    (hij : i < j) :
    braceSpan l = some ((l.drop i).take (j - i + 1)) := by
  have h1 : firstIdxAux (· == '{') l = some i := by
    apply firstIdxAux_eq _ _ _ _ hi (by simp)
    intro k c2 hk hc2
    cases hcb : (c2 == '{') with
    | false => rfl
    | true =>
      have hcc : c2 = '{' := by simpa using hcb
      subst hcc
      exact absurd hc2 (hmin k hk)
  have h2 : lastIdxAux (· == '}') l = some j := by
    apply lastIdxAux_eq _ _ _ _ hj (by simp)
    intro k c2 hk hc2
    cases hcb : (c2 == '}') with
    | false => rfl
    | true =>
      have hcc : c2 = '}' := by simpa using hcb
      subst hcc
      exact absurd hc2 (hmax k hk)
  simp [braceSpan, h1, h2, hij]

/-- A successful regex search exhibits an opening brace strictly before a
closing brace. -/
theorem braceSpan_some_pair (l : List Char) (w : List Char) (h : braceSpan l = some w) :
    ∃ (i j : Nat), i < j ∧ l[i]? = some '{' ∧ l[j]? = some '}' := by
  cases hf : firstIdxAux (· == '{') l with
  | none => simp [braceSpan, hf] at h
  | some i =>
    cases hl : lastIdxAux (· == '}') l with
    | none => simp [braceSpan, hf, hl] at h
    | some j =>
      by_cases hij : i < j
      · obtain ⟨⟨c1, hc1, hpc1⟩, _⟩ := firstIdxAux_some _ l i hf
        obtain ⟨⟨c2, hc2, hpc2⟩, _⟩ := lastIdxAux_some _ l j hl
        have e1 : c1 = '{' := by simpa using hpc1
        have e2 : c2 = '}' := by simpa using hpc2
        subst e1; subst e2
        exact ⟨i, j, hij, hc1, hc2⟩
      · simp [braceSpan, hf, hl, hij] at h

/-- The username fill loop's outcome is the first succeeding user selector. -/
theorem try_fill_userSel (els : List DomEl) :
    (try_fill_on_frame els).userSel = user_selectors.find? (fillAttempt els) := by
  simp only [try_fill_on_frame]
  split
  · split <;> rfl
  · rfl

/-- The password fill loop's outcome is the first succeeding password
selector. -/
theorem try_fill_passSel (els : List DomEl) :
    (try_fill_on_frame els).passSel = pass_selectors.find? (fillAttempt els) := by
  simp only [try_fill_on_frame]
  split
  · split <;> rfl
  · rfl

/-- The submit phase runs exactly when both fill loops succeeded. -/
theorem try_fill_submit_phase (els : List DomEl)
    (hu : (user_selectors.find? (fillAttempt els)).isSome = true)
    (hp : (pass_selectors.find? (fillAttempt els)).isSome = true) :
    (try_fill_on_frame els).submitted = (submit_selectors.find? (clickAttempt els)).isSome := by
  simp only [try_fill_on_frame, hu, hp, Bool.and_self, if_true]
  split <;> simp_all

/-- With at least one fill loop failed, the call returns the no-submit
result. -/
theorem try_fill_no_submit (els : List DomEl)
    (h : (user_selectors.find? (fillAttempt els)).isSome = false ∨
         (pass_selectors.find? (fillAttempt els)).isSome = false) :
    try_fill_on_frame els =
      ⟨user_selectors.find? (fillAttempt els), pass_selectors.find? (fillAttempt els),
       [], none, false⟩ := by
  rcases h with h | h <;> simp [try_fill_on_frame, h]

/-- C1: the alert decision fires exactly when the extracted total strictly
exceeds the threshold — equal to the threshold composes and sends nothing,
threshold + 1 composes and sends the alert — and a result whose
`by_modality` sub-keys are missing is read with CT/MRI defaulting to 0
without raising. -/
theorem C1_alert_strict_threshold (fields bm : List (String × Json)) (t thr : Int)
    (h1 : lookupD fields "count_ct_mri_over_60" (.num 0) = .num t)
    (h2 : lookupD fields "by_modality" (.obj []) = .obj bm) :
    decideAlert (.obj fields) thr =
      .ok (if thr < t then
             some ⟨t, lookupD bm "CT" (.num 0), lookupD bm "MRI" (.num 0)⟩
           else none)
  ∧ (t = thr → decideAlert (.obj fields) thr = .ok none)
  ∧ (t = thr + 1 → decideAlert (.obj fields) thr =
      .ok (some ⟨t, lookupD bm "CT" (.num 0), lookupD bm "MRI" (.num 0)⟩))
  ∧ (fields.find? (fun p => p.1 == "by_modality") = none →
      decideAlert (.obj fields) thr =
        .ok (if thr < t then some ⟨t, .num 0, .num 0⟩ else none))
  ∧ (∀ (inp : RunInput), inp.dryRun = false → inp.inWindow = true →
      perform_login inp.session = true → inp.networkIdle = true →
      forceJsonParse inp.parse inp.content = .ok (.obj fields) →
      ((t = thr → run_once inp thr = ([.navigate, .screenshotPage, .gptRequest], .ok ()))
       ∧ (t = thr + 1 → run_once inp thr =
           ([.navigate, .screenshotPage, .gptRequest,
             .tgTextAlert ⟨t, lookupD bm "CT" (.num 0), lookupD bm "MRI" (.num 0)⟩], .ok ())))) := by
  have hmain : decideAlert (.obj fields) thr =
      .ok (if thr < t then
             some ⟨t, lookupD bm "CT" (.num 0), lookupD bm "MRI" (.num 0)⟩
           else none) := by
    simp [decideAlert, pyGet, pyInt, h1, h2, Except.instMonad, Except.bind, Except.map,
      Except.pure]
  refine ⟨hmain, ?_, ?_, ?_, ?_⟩
  · intro ht
    rw [hmain, if_neg (by omega)]
  · intro ht
    rw [hmain, if_pos (by omega)]
  · intro hmiss
    have hbm : bm = [] := by
      rw [lookupD, hmiss] at h2
      cases h2
      rfl
    subst hbm
    rw [hmain]
    rfl
  · intro inp hdry hwin hlogin hidle hparse
    constructor
    · intro ht
      have hdec : decideAlert (.obj fields) thr = .ok none := by
        rw [hmain, if_neg (by omega)]
      simp [run_once, hdry, hwin, hlogin, hidle, hparse, hdec]
    · intro ht
      have hdec : decideAlert (.obj fields) thr =
          .ok (some ⟨t, lookupD bm "CT" (.num 0), lookupD bm "MRI" (.num 0)⟩) := by
        rw [hmain, if_pos (by omega)]
      simp [run_once, hdry, hwin, hlogin, hidle, hparse, hdec]

/-- C1 witness: with threshold 25 and total 26, the alert is composed with
CT/MRI defaulted to 0 and the live run sends it. -/
theorem C1_alert_strict_threshold_witness :
    lookupD c1Fields "count_ct_mri_over_60" (.num 0) = .num 26 ∧
    lookupD c1Fields "by_modality" (.obj []) = .obj [] ∧
    decideAlert (.obj c1Fields) 25 = .ok (some ⟨26, .num 0, .num 0⟩) ∧
    run_once c1Input 25 =
      ([.navigate, .screenshotPage, .gptRequest, .tgTextAlert ⟨26, .num 0, .num 0⟩], .ok ()) := by
  refine ⟨rfl, rfl, ?_, ?_⟩
  · exact (C1_alert_strict_threshold c1Fields [] 26 25 rfl rfl).2.2.1 rfl
  · exact ((C1_alert_strict_threshold c1Fields [] 26 25 rfl rfl).2.2.2.2 c1Input rfl rfl
      (by decide) rfl rfl).2 rfl

/-- C2: the extraction client parses the whole response strictly first; on
failure it retries exactly on the substring from the first opening brace to
the last closing brace; and when no brace-delimited substring exists, or the
recovered substring fails to parse too, the call errors instead of guessing
field values. -/
theorem C2_strict_then_recover (parse : String → Option Json) (content : String) :
    (∀ j, parse content = some j → forceJsonParse parse content = .ok j)
  ∧ (parse content = none → braceSpan content.data = none →
      forceJsonParse parse content = .error ())
  ∧ (∀ w, parse content = none → braceSpan content.data = some w →
      (∀ j, parse (String.mk w) = some j → forceJsonParse parse content = .ok j)
      ∧ (parse (String.mk w) = none → forceJsonParse parse content = .error ()))
  ∧ (∀ (i j : Nat), content.data[i]? = some '{' →
      (∀ (k : Nat), k < i → content.data[k]? ≠ some '{') →
      content.data[j]? = some '}' →
      (∀ (k : Nat), j < k → content.data[k]? ≠ some '}') →
      i < j →
      braceSpan content.data = some ((content.data.drop i).take (j - i + 1)))
  ∧ ((∀ (i j : Nat), i < j →
        ¬(content.data[i]? = some '{' ∧ content.data[j]? = some '}')) →
      parse content = none → forceJsonParse parse content = .error ()) := by
  refine ⟨?_, ?_, ?_, ?_, ?_⟩
  · intro j hj
    simp [forceJsonParse, hj]
  · intro hp hb
    simp [forceJsonParse, hp, hb]
  · intro w hp hb
    constructor
    · intro j hj
      simp [forceJsonParse, hp, hb, hj]
    · intro hj
      simp [forceJsonParse, hp, hb, hj]
  · intro i j hi hmin hj hmax hij
    exact braceSpan_of_first_last content.data i j hi hmin hj hmax hij
  · intro hnone hp
    cases hb : braceSpan content.data with
    | none => simp [forceJsonParse, hp, hb]
    | some w =>
      obtain ⟨i, j, hij, hi, hj⟩ := braceSpan_some_pair content.data w hb
      exact absurd ⟨hi, hj⟩ (hnone i j hij)

/-- C2 witness: the prose-wrapped response recovers via the brace span, and
a brace-free response errors. -/
theorem C2_strict_then_recover_witness :
    demoParse demoContent = none ∧
    braceSpan demoContent.data = some (String.data "\x7b\"n\": 1\x7d") ∧
    forceJsonParse demoParse demoContent = .ok (.obj [("n", .num 1)]) ∧
    forceJsonParse demoParse "no braces at all" = .error () := by
  refine ⟨rfl, by decide, ?_, ?_⟩
  · exact ((C2_strict_then_recover demoParse demoContent).2.2.1
      (String.data "\x7b\"n\": 1\x7d") rfl (by decide)).1 (.obj [("n", .num 1)]) rfl
  · exact (C2_strict_then_recover demoParse "no braces at all").2.1 rfl (by decide)

/-- C3 counterexample: the discovery loop never retries the top-level frame
target; a session whose top-level target would succeed only at a second
attempt fails under the code while the spec's discovery order succeeds. -/
theorem C3_counterexample :
    perform_login retrySession = false ∧ performLoginSpec retrySession = true ∧
    ¬(∀ s : Session, perform_login s = performLoginSpec s) := by
  refine ⟨by decide, by decide, fun h => ?_⟩
  have hc := h retrySession
  rw [(by decide : perform_login retrySession = false),
      (by decide : performLoginSpec retrySession = true)] at hc
  cases hc

/-- C3 (amended): discovery tries the top-level target once and then each
nested frame in enumeration order, succeeding exactly when one of those
succeeds — in particular a form present only in the last enumerated frame is
found — and no final top-level retry exists (the result never depends on
what a retry would see). -/
theorem C3_frame_iteration (s : Session) :
    (perform_login s = true ↔
      ((try_fill_on_frame s.mainFirst).submitted = true ∨
       ∃ f ∈ s.frames, (try_fill_on_frame f).submitted = true))
  ∧ perform_login ⟨s.mainFirst, [], s.frames⟩ = perform_login s := by
  constructor
  · cases hc : (try_fill_on_frame s.mainFirst).submitted with
    | true => simp [perform_login, hc]
    | false => simp [perform_login, hc, List.any_eq_true]
  · rfl

/-- C4: no submit selector is ever click-attempted on a frame target unless
both the username and the password fill loops succeeded there; an attempt
that populated only one field returns false with no submit click. -/
theorem C4_no_submit_without_both (els : List DomEl)
    (h : user_selectors.find? (fillAttempt els) = none ∨
         pass_selectors.find? (fillAttempt els) = none) :
    (try_fill_on_frame els).submitted = false ∧
    (try_fill_on_frame els).submitAttempts = [] ∧
    (try_fill_on_frame els).clicked = none ∧
    (∀ els2 : List DomEl, (try_fill_on_frame els2).submitAttempts ≠ [] →
      (user_selectors.find? (fillAttempt els2)).isSome = true ∧
      (pass_selectors.find? (fillAttempt els2)).isSome = true) := by
  have h2 : (user_selectors.find? (fillAttempt els)).isSome = false ∨
            (pass_selectors.find? (fillAttempt els)).isSome = false := by
    rcases h with h | h
    · exact Or.inl (by simp [h])
    · exact Or.inr (by simp [h])
  rw [try_fill_no_submit els h2]
  refine ⟨rfl, rfl, rfl, ?_⟩
  intro els2 hne
  cases hu : (user_selectors.find? (fillAttempt els2)).isSome with
  | false => exact absurd (by rw [try_fill_no_submit els2 (Or.inl hu)]) hne
  | true =>
    cases hp : (pass_selectors.find? (fillAttempt els2)).isSome with
    | false => exact absurd (by rw [try_fill_no_submit els2 (Or.inr hp)]) hne
    | true => exact ⟨rfl, rfl⟩

/-- C4 witness: a frame with a username field but no password field makes no
submit attempt. -/
theorem C4_no_submit_without_both_witness :
    pass_selectors.find? (fillAttempt userOnlyEls) = none ∧
    (try_fill_on_frame userOnlyEls).submitted = false ∧
    (try_fill_on_frame userOnlyEls).submitAttempts = [] := by
  refine ⟨by decide, ?_, ?_⟩
  · exact (C4_no_submit_without_both userOnlyEls (Or.inr (by decide))).1
  · exact (C4_no_submit_without_both userOnlyEls (Or.inr (by decide))).2.1

/-- C5: when no strategy chain succeeds on any frame target — including a
session with zero nested frames and zero matching selectors — discovery
returns false (exceptions inside a strategy are modelled as that strategy's
failure), the caller captures a full-page diagnostic screenshot, delivers it
via the notifier only in diagnostic mode, and terminates with an explicit
error without reaching capture or extraction. -/
theorem C5_discovery_exhaustion (inp : RunInput) (thr : Int)
    (hlogin : perform_login inp.session = false)
    (hwin : inp.inWindow = true) :
    run_once inp thr =
      ([.navigate, .screenshotLogin] ++ (if inp.dryRun then [.tgPhotoLoginFail] else []),
       .error .loginNotFound)
  ∧ perform_login emptySession = false := by
  refine ⟨?_, by decide⟩
  simp [run_once, hwin, hlogin]

/-- C5 witness: the empty-session diagnostic run screenshots, notifies, and
errors out. -/
theorem C5_discovery_exhaustion_witness :
    perform_login c5Input.session = false ∧ c5Input.inWindow = true ∧
    run_once c5Input 25 =
      ([.navigate, .screenshotLogin, .tgPhotoLoginFail], .error .loginNotFound) := by
  refine ⟨by decide, rfl, ?_⟩
  have hc := (C5_discovery_exhaustion c5Input 25 (by decide) rfl).1
  simpa using hc

/-- C6 counterexample: the code's fill phase is not the spec's three-sub-
chain cascade — a frame whose credential controls are reachable only through
accessible labels is filled by the spec's label sub-chain but missed by the
code, which has no label-association or visibility-filtered sub-chain. -/
theorem C6_counterexample :
    codeFillPhase labelOnlyEls = false ∧ fillPhaseSpec labelOnlyEls = true ∧
    ¬(∀ els : List DomEl, codeFillPhase els = fillPhaseSpec els) := by
  refine ⟨by decide, by decide, fun h => ?_⟩
  have hc := h labelOnlyEls
  rw [(by decide : codeFillPhase labelOnlyEls = false),
      (by decide : fillPhaseSpec labelOnlyEls = true)] at hc
  cases hc

/-- C6 (amended): the fill phase is a single ranked chain of attribute/role
selectors per field — the first selector whose first document match is
fillable wins, every earlier selector having failed — and fill-phase success
is exactly both per-field loops succeeding; no label-association or
visibility-filtered generic sub-chain exists. -/
theorem C6_single_ranked_chain (els : List DomEl) (s : Sel) :
    ((try_fill_on_frame els).userSel = some s →
      fillAttempt els s = true ∧
      ∃ l1 l2, user_selectors = l1 ++ s :: l2 ∧ ∀ s2 ∈ l1, fillAttempt els s2 = false)
  ∧ ((try_fill_on_frame els).passSel = some s →
      fillAttempt els s = true ∧
      ∃ l1 l2, pass_selectors = l1 ++ s :: l2 ∧ ∀ s2 ∈ l1, fillAttempt els s2 = false)
  ∧ codeFillPhase els =
      ((try_fill_on_frame els).userSel.isSome && (try_fill_on_frame els).passSel.isSome) := by
  refine ⟨?_, ?_, ?_⟩
  · intro hs
    rw [try_fill_userSel] at hs
    obtain ⟨hp, l1, l2, hsplit, hfail⟩ := find?_first_success (fillAttempt els) user_selectors s hs
    exact ⟨hp, l1, l2, hsplit, hfail⟩
  · intro hs
    rw [try_fill_passSel] at hs
    obtain ⟨hp, l1, l2, hsplit, hfail⟩ := find?_first_success (fillAttempt els) pass_selectors s hs
    exact ⟨hp, l1, l2, hsplit, hfail⟩
  · rw [codeFillPhase, try_fill_userSel, try_fill_passSel]

/-- C6 witness: on the complete form the first user selector wins. -/
theorem C6_single_ranked_chain_witness :
    (try_fill_on_frame workingFormEls).userSel = some (.tagAttrEq "input" "name" "username") ∧
    fillAttempt workingFormEls (.tagAttrEq "input" "name" "username") = true := by
  refine ⟨by decide, ?_⟩
  exact ((C6_single_ranked_chain workingFormEls (.tagAttrEq "input" "name" "username")).1
    (by decide)).1

/-- C7: markup longer than the cap is cut to exactly the cap length — a
prefix of the original — before entering the model request; markup at or
under the cap passes through unchanged; the sent markup never exceeds the
cap. -/
theorem C7_markup_truncation (markup : List Char) :
    (markup.length > MARKUP_CAP →
      (tableHtmlSent markup).length = MARKUP_CAP ∧
      tableHtmlSent markup ++ markup.drop MARKUP_CAP = markup)
  ∧ (markup.length ≤ MARKUP_CAP → tableHtmlSent markup = markup)
  ∧ (tableHtmlSent markup).length ≤ MARKUP_CAP := by
  refine ⟨?_, ?_, ?_⟩
  · intro h
    constructor
    · simp only [tableHtmlSent, List.length_take]
      omega
    · exact List.take_append_drop _ _
  · intro h
    exact List.take_of_length_le h
  · simp only [tableHtmlSent, List.length_take]
    omega

/-- C7 witness: a markup one character over the cap is cut to the cap. -/
theorem C7_markup_truncation_witness :
    (List.replicate (MARKUP_CAP + 1) 'x').length > MARKUP_CAP ∧
    (tableHtmlSent (List.replicate (MARKUP_CAP + 1) 'x')).length = MARKUP_CAP := by
  have hlen : (List.replicate (MARKUP_CAP + 1) 'x').length > MARKUP_CAP := by
    simp
  exact ⟨hlen, ((C7_markup_truncation _).1 hlen).1⟩

/-- C8: a notification text of length `3 * CHUNK + 10` is sent as exactly 4
chunks, none exceeding `CHUNK`, whose concatenation in send order is the
original text; a text within `CHUNK` is sent as one message. -/
theorem C8_text_chunking (text : List Char) (h : text.length = 3 * CHUNK + 10) :
    (send_telegram_text text).length = 4
  ∧ (∀ c ∈ send_telegram_text text, c.length ≤ CHUNK)
  ∧ (send_telegram_text text).flatten = text
  ∧ (∀ t2 : List Char, t2.length ≤ CHUNK → send_telegram_text t2 = [t2]) := by
  have hgt : ¬text.length ≤ CHUNK := by
    rw [h]
    simp only [CHUNK]
    omega
  have hsend : send_telegram_text text = splitChunks text := by
    simp [send_telegram_text, hgt]
  refine ⟨?_, ?_, ?_, ?_⟩
  · rw [hsend, splitChunks_count, h]
    simp only [CHUNK]
  · rw [hsend]
    exact splitChunks_chunk_le text
  · rw [hsend]
    exact splitChunks_join text
  · intro t2 h2
    simp [send_telegram_text, h2]

/-- C8 witness: a 10510-character text goes out in 4 chunks. -/
theorem C8_text_chunking_witness :
    (List.replicate (3 * CHUNK + 10) 'a').length = 3 * CHUNK + 10 ∧
    (send_telegram_text (List.replicate (3 * CHUNK + 10) 'a')).length = 4 := by
  have hlen : (List.replicate (3 * CHUNK + 10) 'a').length = 3 * CHUNK + 10 := by
    simp
  exact ⟨hlen, (C8_text_chunking _ hlen).1⟩

/-- C9 counterexample: after a successful login, a network-quiescence
timeout terminates the run with an uncaught timeout error before any capture
or extraction — the run does not proceed on timeout. -/
theorem C9_counterexample :
    perform_login idleTimeoutInput.session = true ∧
    idleTimeoutInput.networkIdle = false ∧
    run_once idleTimeoutInput 25 = ([.navigate], .error .networkIdleTimeout) := by
  exact ⟨by decide, rfl, by rfl⟩

/-- C9 (amended): after a successful login the run waits for network
quiescence under the automation library's default bounded timeout (30 s, not
10 s) and, when the wait times out, fails the run with the uncaught timeout
error instead of proceeding to capture — quiescence is required, not
advisory. -/
theorem C9_network_idle_blocking (inp : RunInput) (thr : Int)
    (hrun : inp.dryRun = true ∨ inp.inWindow = true)
    (hlogin : perform_login inp.session = true)
    (hidle : inp.networkIdle = false) :
    run_once inp thr = ([.navigate], .error .networkIdleTimeout) := by
  rcases hrun with h | h <;> simp [run_once, h, hlogin, hidle]

/-- C9 witness: the concrete idle-timeout run errors out before capture. -/
theorem C9_network_idle_blocking_witness :
    (idleTimeoutInput.dryRun = true ∨ idleTimeoutInput.inWindow = true) ∧
    perform_login idleTimeoutInput.session = true ∧
    idleTimeoutInput.networkIdle = false ∧
    run_once idleTimeoutInput 25 = ([.navigate], .error .networkIdleTimeout) :=
  ⟨Or.inr rfl, by decide, rfl,
    C9_network_idle_blocking idleTimeoutInput 25 (Or.inr rfl) (by decide) rfl⟩

/-- C10: the schedule gate is a pure function of the New York weekday and
hour, true exactly on Monday-Friday at hours 18, 20, 22 and on Saturday at
the even hours 4 through 22, never on Sunday; and a live-mode run outside
the window returns immediately with no browser, model, or notification
action. -/
theorem C10_schedule_gate :
    (∀ wd, wd < 7 → ∀ hr, hr < 24 →
      (within_window_now wd hr = true ↔
        ((wd < 5 ∧ (hr = 18 ∨ hr = 20 ∨ hr = 22)) ∨
         (wd = 5 ∧ hr % 2 = 0 ∧ 4 ≤ hr ∧ hr ≤ 22))))
  ∧ (∀ hr, hr < 24 → within_window_now 6 hr = false)
  ∧ (∀ (inp : RunInput) (thr : Int), inp.dryRun = false → inp.inWindow = false →
      run_once inp thr = ([], .ok ())) := by
  refine ⟨by decide, by decide, ?_⟩
  intro inp thr hdry hwin
  simp [run_once, hdry, hwin]

/-- C10 witness: Wednesday 20:00 is in-window, Sunday is not, and the
out-of-window live run performs no action. -/
theorem C10_schedule_gate_witness :
    within_window_now 2 20 = true ∧ within_window_now 6 10 = false ∧
    gateOffInput.dryRun = false ∧ gateOffInput.inWindow = false ∧
    run_once gateOffInput 25 = ([], .ok ()) := by
  refine ⟨?_, ?_, rfl, rfl, ?_⟩
  · exact (C10_schedule_gate.1 2 (by omega) 20 (by omega)).mpr
      (Or.inl ⟨by omega, Or.inr (Or.inl rfl)⟩)
  · exact C10_schedule_gate.2.1 10 (by omega)
  · exact C10_schedule_gate.2.2 gateOffInput 25 rfl rfl
